import Mathlib

/-!
Verification of the Transfer Verification Protocol of medpredict-AI.

The repository ships the client-side contract code (`frontend/src/lib/api.ts`,
`frontend/src/app/transfers/page.tsx`); the server-side controller, integrity
engine, anomaly detector and query service are modelled from the specification
(sections 3 to 7) the repository documents.  Client-side functions are
embedded directly from the TypeScript source.
-/

namespace Protocol

/-- Transfer lifecycle status, from the `Transfer` interface in
`frontend/src/lib/api.ts` (`created | picked_up | delivered | verified | disputed`). -/
inductive TransferStatus where
  | created
  | picked_up
  | delivered
  | verified
  | disputed
deriving DecidableEq, Inhabited

/-- Transfer priority, from the `Transfer` interface (`normal | urgent | critical`). -/
inductive Priority where
  | normal
  | urgent
  | critical
deriving DecidableEq, Inhabited

/-- The central entity, mirroring the `Transfer` interface in
`frontend/src/lib/api.ts` field by field.  Timestamps are modelled as natural
numbers, quantities as integers, nullable fields as `Option`. -/
structure Transfer where
  id : String
  medicine_id : String
  quantity : Int
  from_district_id : String
  to_district_id : String
  status : TransferStatus
  priority : Priority
  created_at : Nat
  created_by : String
  sender_signature : Option String
  pickup_at : Option Nat
  transporter_id : Option String
  transporter_signature : Option String
  delivered_at : Option Nat
  receiver_id : Option String
  receiver_signature : Option String
  received_quantity : Option Int
  verification_hash : Option String
  is_verified : Bool
  has_discrepancy : Bool
  discrepancy_type : Option String
  discrepancy_notes : Option String
deriving DecidableEq, Inhabited

/-- Severity of an anomaly finding, from the `TransferAnomaly` interface
(`critical | warning`). -/
inductive Severity where
  | critical
  | warning
deriving DecidableEq, Inhabited

/-- An anomaly finding, mirroring the `TransferAnomaly` interface in
`frontend/src/lib/api.ts`. -/
structure Anomaly where
  type : String
  severity : Severity
  message : String
  missing_units : Option Int
deriving DecidableEq, Inhabited

/-- Error taxonomy, modelled from the spec: the error-handling design names
`ValidationError`, `NotFoundError`, `InvalidTransitionError` (carrying the
current status and the attempted event) and `IntegrityError`. -/
inductive TransferError where
  | validationError : String → TransferError
  | notFoundError : TransferError
  | invalidTransitionError : TransferStatus → String → TransferError
  | integrityError : TransferError
deriving DecidableEq, Inhabited

/-- Modelled from the spec: the Integrity Engine is missing from the client
sources.  `Sign(priorSignature, actorId, timestamp, extra...)` is a
deterministic digest over the canonical concatenation of the prior signature,
the actor id, the timestamp and any extra fields; we model the ideal digest
as that canonical concatenation itself. -/
def sign (prior : String) (actorId : String) (timestamp : Nat) (extra : List Int) : String :=
  "SIG(" ++ prior ++ "|" ++ actorId ++ "|" ++ toString timestamp ++ "|"
    ++ String.intercalate "," (extra.map toString) ++ ")"

/-- Modelled from the spec: the sender signature is computed over
(id, created_by, created_at, quantity). -/
def senderSign (id : String) (created_by : String) (created_at : Nat) (quantity : Int) : String :=
  "SIG0(" ++ id ++ "|" ++ created_by ++ "|" ++ toString created_at ++ "|"
    ++ toString quantity ++ ")"

/-- Modelled from the spec: `verification_hash` is a digest computed only over
the three custody signatures, never over mutable fields. -/
def verificationHash (senderSig : String) (transporterSig : String) (receiverSig : String) : String :=
  "HASH(" ++ senderSig ++ "|" ++ transporterSig ++ "|" ++ receiverSig ++ ")"

/-- Modelled from the spec: the create-side validation of the State Machine
Controller.  `CreateTransfer` fails with `ValidationError` if quantity ≤ 0,
districts equal, or required fields missing. -/
structure CreateRequest where
  medicine_id : String
  quantity : Int
  from_district_id : String
  to_district_id : String
  priority : Priority
  created_by : String
deriving DecidableEq, Inhabited

/-- Modelled from the spec: validation performed by `CreateTransfer`, returning
the violated constraint when the request is rejected. -/
def validateCreate (req : CreateRequest) : Option String :=
  if req.quantity ≤ 0 then some "quantity must be positive"
  else if req.from_district_id = req.to_district_id then some "origin and destination districts must differ"
  else if req.medicine_id = "" || req.from_district_id = "" || req.to_district_id = ""
      || req.created_by = "" then some "required field missing"
  else none

/-- Modelled from the spec: the freshly created record — status `created`,
sender signature computed over (id, created_by, created_at, quantity), all
later fields null and both terminal flags false. -/
def mkTransfer (id : String) (req : CreateRequest) (now : Nat) : Transfer :=
  { id := id
    medicine_id := req.medicine_id
    quantity := req.quantity
    from_district_id := req.from_district_id
    to_district_id := req.to_district_id
    status := .created
    priority := req.priority
    created_at := now
    created_by := req.created_by
    sender_signature := some (senderSign id req.created_by now req.quantity)
    pickup_at := none
    transporter_id := none
    transporter_signature := none
    delivered_at := none
    receiver_id := none
    receiver_signature := none
    received_quantity := none
    verification_hash := none
    is_verified := false
    has_discrepancy := false
    discrepancy_type := none
    discrepancy_notes := none }

/-- Modelled from the spec: `CreateTransfer` — validate, then produce the new
record in status `created`. -/
def createTransfer (id : String) (req : CreateRequest) (now : Nat) :
    Except TransferError Transfer :=
  match validateCreate req with
  | some msg => .error (.validationError msg)
  | none => .ok (mkTransfer id req now)

/-- Modelled from the spec: `RecordPickup` — valid only when status is
`created`; sets pickup_at, transporter_id and the transporter signature
`sign(prior = sender_signature, transporter_id, pickup_at)`.  A missing prior
signature breaks the chain and blocks progress with `IntegrityError`. -/
def recordPickup (t : Transfer) (transporter : String) (now : Nat) :
    Except TransferError Transfer :=
  match t.status with
  | .created =>
    match t.sender_signature with
    | some ss =>
      .ok { t with
        status := .picked_up
        pickup_at := some now
        transporter_id := some transporter
        transporter_signature := some (sign ss transporter now []) }
    | none => .error .integrityError
  | st => .error (.invalidTransitionError st "pickup")

/-- Modelled from the spec: configuration point for the excessive-delay check —
the delay threshold per priority class is deliberately left open by the spec,
so the detector is parameterised by it. -/
structure DelayConfig where
  threshold : Priority → Nat
deriving Inhabited

/-- Modelled from the spec: detector check 1 — quantity mismatch (critical)
whenever `received_quantity != quantity`, with signed
`missing_units = quantity - received_quantity`. -/
def quantityCheck (t : Transfer) : List Anomaly :=
  match t.received_quantity with
  | some rq =>
    if rq ≠ t.quantity then
      [{ type := "quantity_mismatch"
         severity := .critical
         message := "Quantity mismatch: shipped " ++ toString t.quantity
           ++ ", received " ++ toString rq
         missing_units := some (t.quantity - rq) }]
    else []
  | none => []

/-- Modelled from the spec: detector check 2 — excessive delay (warning) when
the elapsed time between pickup and delivery exceeds the configured threshold
for the priority class. -/
def delayCheck (cfg : DelayConfig) (t : Transfer) : List Anomaly :=
  match t.pickup_at, t.delivered_at with
  | some p, some d =>
    if cfg.threshold t.priority < d - p then
      [{ type := "excessive_delay"
         severity := .warning
         message := "Transit time exceeded the threshold for the priority class"
         missing_units := none }]
    else []
  | _, _ => []

/-- Modelled from the spec: which custody signatures are expected for each
status — sender from creation, transporter from pickup, receiver from
delivery. -/
def expectedSignaturesPresent (t : Transfer) : Bool :=
  match t.status with
  | .created => t.sender_signature.isSome
  | .picked_up => t.sender_signature.isSome && t.transporter_signature.isSome
  | _ => t.sender_signature.isSome && t.transporter_signature.isSome
      && t.receiver_signature.isSome

/-- Modelled from the spec: detector check 3 — missing signature (critical),
a defensive re-validation of the chain. -/
def signatureCheck (t : Transfer) : List Anomaly :=
  if expectedSignaturesPresent t then []
  else
    [{ type := "missing_signature"
       severity := .critical
       message := "Expected custody signature is absent"
       missing_units := none }]

/-- Modelled from the spec: the Anomaly Detector runs its checks in priority
order and returns the ordered list of findings. -/
def detectAnomalies (cfg : DelayConfig) (t : Transfer) : List Anomaly :=
  quantityCheck t ++ delayCheck cfg t ++ signatureCheck t

/-- Modelled from the spec: the dominant finding is the highest-severity one;
with the checks ordered by priority this is the first critical finding. -/
def firstCritical (findings : List Anomaly) : Option Anomaly :=
  findings.find? (fun a => decide (a.severity = .critical))

/-- Modelled from the spec: the intermediate delivered record — delivered_at,
receiver identity, receiver signature
`sign(prior = transporter_signature, receiver_id, delivered_at, received_quantity)`
and received_quantity are set. -/
def deliveredDraft (t : Transfer) (receiver : String) (q : Int) (transporterSig : String)
    (now : Nat) : Transfer :=
  { t with
    status := .delivered
    delivered_at := some now
    receiver_id := some receiver
    receiver_signature := some (sign transporterSig receiver now [q])
    received_quantity := some q }

/-- Modelled from the spec: the terminal fork — no critical finding yields
`verified` with the verification hash over the three signatures; otherwise
`disputed` with discrepancy_type from the dominant anomaly and
discrepancy_notes from caller-supplied notes or a generated message. -/
def finalizeDelivery (cfg : DelayConfig) (draft : Transfer) (senderSig : String)
    (transporterSig : String) (receiverSig : String) (notes : Option String) : Transfer :=
  match firstCritical (detectAnomalies cfg draft) with
  | none =>
    { draft with
      status := .verified
      is_verified := true
      verification_hash := some (verificationHash senderSig transporterSig receiverSig) }
  | some a =>
    { draft with
      status := .disputed
      has_discrepancy := true
      discrepancy_type := some a.type
      discrepancy_notes := some (notes.getD a.message) }

/-- Modelled from the spec: `RecordDelivery` — valid only when status is
`picked_up` and `received_quantity ≥ 0`; signs the final custody step, runs
the Anomaly Detector and commits the terminal fork.  A broken signature chain
blocks verification with `IntegrityError`. -/
def recordDelivery (cfg : DelayConfig) (t : Transfer) (receiver : String) (q : Int)
    (notes : Option String) (now : Nat) : Except TransferError Transfer :=
  match t.status with
  | .picked_up =>
    if q < 0 then .error (.validationError "received quantity must be non-negative")
    else
      match t.sender_signature, t.transporter_signature with
      | some ss, some tg =>
        .ok (finalizeDelivery cfg (deliveredDraft t receiver q tg now) ss tg
          (sign tg receiver now [q]) notes)
      | _, _ => .error .integrityError
  | st => .error (.invalidTransitionError st "deliver")

/-- Modelled from the spec: the Transfer Record Store — durable keyed storage,
one record per transfer keyed by id. -/
abbrev Store := List (String × Transfer)

/-- Modelled from the spec: look a transfer up by id in the store. -/
def lookupT (s : Store) (tid : String) : Option Transfer :=
  (s.find? (fun p => decide (p.1 = tid))).map (fun p => p.2)

/-- Modelled from the spec: in-place field update of the record with the given
id, guarded by the state machine; never a deletion. -/
def updateT (s : Store) (tid : String) (t : Transfer) : Store :=
  s.map (fun p => if p.1 = tid then (tid, t) else p)

/-- Modelled from the spec: store-level `CreateTransfer` — on a validation
failure no record is created and the store is returned unchanged. -/
def storeCreate (s : Store) (id : String) (req : CreateRequest) (now : Nat) :
    Store × Except TransferError Transfer :=
  match createTransfer id req now with
  | .error e => (s, .error e)
  | .ok t => ((id, t) :: s, .ok t)

/-- Modelled from the spec: store-level `RecordPickup` — `NotFoundError` on an
unknown id; on any failure the store is returned unchanged. -/
def storePickup (s : Store) (tid : String) (transporter : String) (now : Nat) :
    Store × Except TransferError Transfer :=
  match lookupT s tid with
  | none => (s, .error .notFoundError)
  | some t =>
    match recordPickup t transporter now with
    | .error e => (s, .error e)
    | .ok t' => (updateT s tid t', .ok t')

/-- Modelled from the spec: store-level `RecordDelivery` — `NotFoundError` on
an unknown id; on any failure the store is returned unchanged. -/
def storeDeliver (cfg : DelayConfig) (s : Store) (tid : String) (receiver : String)
    (q : Int) (notes : Option String) (now : Nat) :
    Store × Except TransferError Transfer :=
  match lookupT s tid with
  | none => (s, .error .notFoundError)
  | some t =>
    match recordDelivery cfg t receiver q notes now with
    | .error e => (s, .error e)
    | .ok t' => (updateT s tid t', .ok t')

/-- Modelled from the spec: `ListPending()` — the transfers in status
`created` or `picked_up`; a pure read of the store. -/
def listPending (s : Store) : List Transfer :=
  (s.map (fun p => p.2)).filter
    (fun t => decide (t.status = .created) || decide (t.status = .picked_up))

/-- Modelled from the spec: `ListAnomalous()` — the transfers with
`has_discrepancy = true` or any non-empty Detector findings, each paired with
its findings; a pure read of the store. -/
def listAnomalous (cfg : DelayConfig) (s : Store) : List (Transfer × List Anomaly) :=
  (s.map (fun p => p.2)).filterMap (fun t =>
    if t.has_discrepancy || !(detectAnomalies cfg t).isEmpty
    then some (t, detectAnomalies cfg t) else none)

/-- The transfers reachable through the lifecycle operations: created by
`createTransfer` and mutated only by `recordPickup` and `recordDelivery`. -/
inductive Reachable (cfg : DelayConfig) : Transfer → Prop where
  | create : ∀ (id : String) (req : CreateRequest) (now : Nat) (t : Transfer),
      createTransfer id req now = .ok t → Reachable cfg t
  | pickup : ∀ (t : Transfer) (transporter : String) (now : Nat) (t' : Transfer),
      Reachable cfg t → recordPickup t transporter now = .ok t' → Reachable cfg t'
  | deliver : ∀ (t : Transfer) (receiver : String) (q : Int) (notes : Option String)
      (now : Nat) (t' : Transfer),
      Reachable cfg t → recordDelivery cfg t receiver q notes now = .ok t' →
      Reachable cfg t'

/-! Concrete scenarios from the spec (section 8), driven through the modelled
operations: scenario A (exact delivery, verified), scenario B (100 units
missing, disputed) and scenario C (created, no further events). -/

/-- A concrete delay configuration with a shorter threshold for the
`critical` and `urgent` priority classes. -/
def demoCfg : DelayConfig :=
  { threshold := fun p =>
      match p with
      | .normal => 96
      | .urgent => 48
      | .critical => 24 }

/-- Scenario A request: PARA-500, 2000 units, Jaipur to Kota, urgent. -/
def demoReqA : CreateRequest :=
  { medicine_id := "PARA-500"
    quantity := 2000
    from_district_id := "RJ-JP"
    to_district_id := "RJ-KT"
    priority := .urgent
    created_by := "DEMO-CMO-JAIPUR" }

/-- Scenario A after creation. -/
def demoA0 : Transfer := ((createTransfer "TRF-001" demoReqA 100).toOption).getD default

/-- Scenario A after pickup by vehicle V-001. -/
def demoA1 : Transfer := ((recordPickup demoA0 "DEMO-VEHICLE-001" 110).toOption).getD default

/-- Scenario A after delivering the full 2000 units. -/
def demoA2 : Transfer :=
  ((recordDelivery demoCfg demoA1 "DEMO-CMO-KOTA" 2000 none 120).toOption).getD default

/-- Scenario B request: IV-RL, 800 units, Udaipur to Ajmer, critical. -/
def demoReqB : CreateRequest :=
  { medicine_id := "IV-RL"
    quantity := 800
    from_district_id := "RJ-UD"
    to_district_id := "RJ-AJ"
    priority := .critical
    created_by := "DEMO-CMO-UDAIPUR" }

/-- Scenario B after creation. -/
def demoB0 : Transfer := ((createTransfer "TRF-002" demoReqB 200).toOption).getD default

/-- Scenario B after pickup by vehicle V-002. -/
def demoB1 : Transfer := ((recordPickup demoB0 "DEMO-VEHICLE-002" 210).toOption).getD default

/-- Scenario B after delivering only 700 of the 800 units. -/
def demoB2 : Transfer :=
  ((recordDelivery demoCfg demoB1 "DEMO-CMO-AJMER" 700
    (some "100 units missing on arrival") 220).toOption).getD default

/-- Scenario C request: ORS-WHO, 500 units, Bikaner to Ganganagar, normal. -/
def demoReqC : CreateRequest :=
  { medicine_id := "ORS-WHO"
    quantity := 500
    from_district_id := "RJ-BK"
    to_district_id := "RJ-GN"
    priority := .normal
    created_by := "DEMO-CMO-BIKANER" }

/-- Scenario C after creation; no further events. -/
def demoC0 : Transfer := ((createTransfer "TRF-003" demoReqC 300).toOption).getD default

/-- Scenario A transporter signature recomputed from its stored inputs. -/
def demoA_senderSig : String := senderSign "TRF-001" "DEMO-CMO-JAIPUR" 100 2000

/-- Scenario A transporter signature recomputed from its stored inputs. -/
def demoA_transporterSig : String := sign demoA_senderSig "DEMO-VEHICLE-001" 110 []

/-- Scenario A receiver signature recomputed from its stored inputs. -/
def demoA_receiverSig : String := sign demoA_transporterSig "DEMO-CMO-KOTA" 120 [2000]

/-- Scenario B sender signature recomputed from its stored inputs. -/
def demoB_senderSig : String := senderSign "TRF-002" "DEMO-CMO-UDAIPUR" 200 800

/-- Scenario B transporter signature recomputed from its stored inputs. -/
def demoB_transporterSig : String := sign demoB_senderSig "DEMO-VEHICLE-002" 210 []

/-- A store holding the three demo transfers in their final states. -/
def demoStore : Store := [("TRF-001", demoA2), ("TRF-002", demoB2), ("TRF-003", demoC0)]

/-! The lifecycle invariant: how the terminal flags correlate with the status,
which fields are still null in each phase, and how the custody signatures
chain to one another. -/

/-- Correlation of the two terminal flags with the lifecycle status. -/
def FlagsOK (t : Transfer) : Prop :=
  (t.status = .created → t.is_verified = false ∧ t.has_discrepancy = false)
  ∧ (t.status = .picked_up → t.is_verified = false ∧ t.has_discrepancy = false)
  ∧ (t.status = .delivered → False)
  ∧ (t.status = .verified → t.is_verified = true ∧ t.has_discrepancy = false)
  ∧ (t.status = .disputed → t.is_verified = false ∧ t.has_discrepancy = true)

/-- Which custody signatures exist in the two non-terminal phases. -/
def SigShape (t : Transfer) : Prop :=
  (t.status = .created →
    t.sender_signature.isSome = true ∧ t.transporter_signature = none
    ∧ t.receiver_signature = none)
  ∧ (t.status = .picked_up →
    t.sender_signature.isSome = true ∧ t.transporter_signature.isSome = true
    ∧ t.receiver_signature = none)

/-- The signature chain: each stored digest is exactly the one recomputed from
its stored inputs, and a later signature can only exist together with the
prior one and with the inputs it binds. -/
def ChainLinks (t : Transfer) : Prop :=
  (∀ sg ss tid pat, t.transporter_signature = some sg → t.sender_signature = some ss →
    t.transporter_id = some tid → t.pickup_at = some pat → sg = sign ss tid pat [])
  ∧ (∀ rg tg rid dat rq, t.receiver_signature = some rg →
    t.transporter_signature = some tg → t.receiver_id = some rid →
    t.delivered_at = some dat → t.received_quantity = some rq →
    rg = sign tg rid dat [rq])
  ∧ (t.transporter_signature.isSome = true →
    t.sender_signature.isSome = true ∧ t.transporter_id.isSome = true
    ∧ t.pickup_at.isSome = true)
  ∧ (t.receiver_signature.isSome = true →
    t.transporter_signature.isSome = true ∧ t.receiver_id.isSome = true
    ∧ t.delivered_at.isSome = true ∧ t.received_quantity.isSome = true)

/-- Recognizer: the operation succeeded. -/
def isOk (e : Except TransferError Transfer) : Bool :=
  match e with
  | .ok _ => true
  | .error _ => false

/-- Recognizer: the operation succeeded with a transfer in a terminal state. -/
def isOkTerminal (e : Except TransferError Transfer) : Bool :=
  match e with
  | .ok t => decide (t.status = .verified) || decide (t.status = .disputed)
  | .error _ => false

/-- Recognizer: the operation failed with a `ValidationError`. -/
def isValidationError (e : Except TransferError Transfer) : Bool :=
  match e with
  | .error (.validationError _) => true
  | _ => false

/-- Recognizer: the operation failed with an `InvalidTransitionError`. -/
def isInvalidTransition (e : Except TransferError Transfer) : Bool :=
  match e with
  | .error (.invalidTransitionError _ _) => true
  | _ => false

end Protocol

namespace Client

/-! Embedding of the client-side code that is present in the repository:
the transfer API wrappers of `frontend/src/lib/api.ts` and the create-transfer
form handler of `frontend/src/app/transfers/page.tsx`. -/

/-- An HTTP response as the `fetch` promise resolves it: a status code and a
raw body the `json()` method parses. -/
structure HttpResponse where
  status : Nat
  body : String
deriving DecidableEq, Inhabited

/-- Outcome of a `fetch` call: the request itself fails (the promise rejects)
or a response arrives, whatever its status code. -/
inductive FetchOutcome where
  | networkError : FetchOutcome
  | response : HttpResponse → FetchOutcome
deriving DecidableEq, Inhabited

/-- Outcome of an `async` API wrapper: the returned promise rejects, or it
resolves with a parsed value. -/
inductive ApiResult (α : Type) where
  | rejected : ApiResult α
  | resolved : α → ApiResult α
deriving DecidableEq

/-- `getTransfers` from `frontend/src/lib/api.ts`: awaits the fetch of
`/api/transfers/` (with optional filters) and returns `res.json()` without
inspecting `res.status` or `res.ok`. -/
def getTransfers {α : Type} (parse : String → Option α) (outcome : FetchOutcome) :
    ApiResult α :=
  match outcome with
  | .networkError => .rejected
  | .response r =>
    match parse r.body with
    | none => .rejected
    | some v => .resolved v

/-- `getTransfer` from `frontend/src/lib/api.ts`: awaits the fetch of
`/api/transfers/{id}` and returns `res.json()` without inspecting the status. -/
def getTransfer {α : Type} (parse : String → Option α) (outcome : FetchOutcome) :
    ApiResult α :=
  match outcome with
  | .networkError => .rejected
  | .response r =>
    match parse r.body with
    | none => .rejected
    | some v => .resolved v

/-- `getPendingTransfers` from `frontend/src/lib/api.ts`: awaits the fetch of
`/api/transfers/pending/list` and returns `res.json()` without inspecting the
status. -/
def getPendingTransfers {α : Type} (parse : String → Option α) (outcome : FetchOutcome) :
    ApiResult α :=
  match outcome with
  | .networkError => .rejected
  | .response r =>
    match parse r.body with
    | none => .rejected
    | some v => .resolved v

/-- `getAnomalousTransfers` from `frontend/src/lib/api.ts`: awaits the fetch of
`/api/transfers/anomalies/list` and returns `res.json()` without inspecting
the status. -/
def getAnomalousTransfers {α : Type} (parse : String → Option α) (outcome : FetchOutcome) :
    ApiResult α :=
  match outcome with
  | .networkError => .rejected
  | .response r =>
    match parse r.body with
    | none => .rejected
    | some v => .resolved v

/-- `createTransfer` from `frontend/src/lib/api.ts`: awaits the POST to
`/api/transfers/` and returns `res.json()` without inspecting the status. -/
def createTransfer {α : Type} (parse : String → Option α) (outcome : FetchOutcome) :
    ApiResult α :=
  match outcome with
  | .networkError => .rejected
  | .response r =>
    match parse r.body with
    | none => .rejected
    | some v => .resolved v

/-- `recordPickup` from `frontend/src/lib/api.ts`: awaits the POST to
`/api/transfers/{id}/pickup` and returns `res.json()` without inspecting the
status. -/
def recordPickup {α : Type} (parse : String → Option α) (outcome : FetchOutcome) :
    ApiResult α :=
  match outcome with
  | .networkError => .rejected
  | .response r =>
    match parse r.body with
    | none => .rejected
    | some v => .resolved v

/-- `recordDelivery` from `frontend/src/lib/api.ts`: awaits the POST to
`/api/transfers/{id}/deliver` and returns `res.json()` without inspecting the
status. -/
def recordDelivery {α : Type} (parse : String → Option α) (outcome : FetchOutcome) :
    ApiResult α :=
  match outcome with
  | .networkError => .rejected
  | .response r =>
    match parse r.body with
    | none => .rejected
    | some v => .resolved v

/-- The state of the create-transfer form in `CreateTransferModal`
(`frontend/src/app/transfers/page.tsx`). -/
structure TransferFormData where
  from_district_id : String
  to_district_id : String
  medicine_id : String
  quantity : Int
  priority : String
  created_by : String
deriving DecidableEq, Inhabited

/-- Observable effects of one run of `CreateTransferModal.handleSubmit`:
whether `createTransfer` was called and with which form data, whether the
`onSuccess` callback ran, and which alert (if any) was shown. -/
structure SubmitOutcome where
  createCalled : Option TransferFormData
  onSuccessCalled : Bool
  alertMessage : Option String
deriving DecidableEq, Inhabited

/-- `CreateTransferModal.handleSubmit` from
`frontend/src/app/transfers/page.tsx`: if the two district ids are equal it
alerts and returns before calling `createTransfer`; otherwise it awaits
`createTransfer(formData)` and calls `onSuccess`, alerting instead when the
call rejects.  `createResolves` models whether the awaited promise resolves. -/
def handleSubmit (fd : TransferFormData) (createResolves : Bool) : SubmitOutcome :=
  if fd.from_district_id = fd.to_district_id then
    { createCalled := none
      onSuccessCalled := false
      alertMessage := some "Source and destination must be different!" }
  else if createResolves then
    { createCalled := some fd
      onSuccessCalled := true
      alertMessage := none }
  else
    { createCalled := some fd
      onSuccessCalled := false
      alertMessage := some "Error creating transfer" }

/-- A form submission in which origin and destination coincide. -/
def demoFormSame : TransferFormData :=
  { from_district_id := "RJ-JP"
    to_district_id := "RJ-JP"
    medicine_id := "PARA-500"
    quantity := 500
    priority := "normal"
    created_by := "CMO-USER" }

/-- A concrete JSON parser stand-in: an empty body fails to parse, any other
body parses to itself. -/
def demoParse : String → Option String :=
  fun s => if s = "" then none else some s

/-- A concrete 404 response carrying an error body. -/
def demo404 : HttpResponse := { status := 404, body := "transfer not found" }

end Client

namespace Protocol

/-- Every transfer reachable through the lifecycle operations satisfies the
flag correlation, the per-phase field shape and the signature chain. -/
theorem reachable_inv (cfg : DelayConfig) (t : Transfer) (h : Reachable cfg t) :
    FlagsOK t ∧ SigShape t ∧ ChainLinks t := by
  induction h with
  | create id req now u hok =>
    unfold createTransfer at hok
    split at hok
    · exact absurd hok (by simp)
    · injection hok with hok
      subst hok
      refine ⟨?_, ?_, ?_⟩ <;>
        simp [FlagsOK, SigShape, ChainLinks, mkTransfer]
  | pickup u tr now u' hre hok ih =>
    obtain ⟨hF, hS, hC⟩ := ih
    unfold recordPickup at hok
    split at hok
    · rename_i hst
      split at hok
      · rename_i ss hsig
        injection hok with hok
        subst hok
        obtain ⟨hvf, hdf⟩ := hF.1 hst
        obtain ⟨-, -, hrn⟩ := hS.1 hst
        refine ⟨?_, ?_, ?_, ?_, ?_, ?_⟩
        · simp [FlagsOK, hvf, hdf]
        · simp [SigShape, hsig, hrn]
        · intro sg ss' tid pat h1 h2 h3 h4
          rw [hsig] at h2
          simp only [Transfer.transporter_signature] at h1
          simp only [Transfer.transporter_id] at h3
          simp only [Transfer.pickup_at] at h4
          obtain rfl := Option.some.inj h1
          obtain rfl := Option.some.inj (h2.symm.trans rfl)
          obtain rfl := Option.some.inj h3
          obtain rfl := Option.some.inj h4
          rfl
        · intro rg tg rid dat rq h1 _ _ _ _
          simp only [Transfer.receiver_signature] at h1
          rw [hrn] at h1
          exact absurd h1 (by simp)
        · intro _
          simp [hsig]
        · intro hcontra
          simp only [Transfer.receiver_signature] at hcontra
          rw [hrn] at hcontra
          exact absurd hcontra (by simp)
      · exact absurd hok (by simp)
    · exact absurd hok (by simp)
  | deliver u rc q notes now u' hre hok ih =>
    obtain ⟨hF, hS, hC⟩ := ih
    unfold recordDelivery at hok
    split at hok
    · rename_i hst
      split at hok
      · exact absurd hok (by simp)
      · split at hok
        · rename_i ss tg hss htg
          injection hok with hok
          subst hok
          obtain ⟨hvf, hdf⟩ := hF.2.1 hst
          unfold finalizeDelivery
          split
          · refine ⟨?_, ?_, ?_, ?_, ?_, ?_⟩
            · simp [FlagsOK, deliveredDraft, hvf, hdf]
            · simp [SigShape, deliveredDraft]
            · intro sg ss' tid pat h1 h2 h3 h4
              simp only [deliveredDraft, Transfer.transporter_signature,
                Transfer.pickup_at, Transfer.transporter_id] at h1 h2 h3 h4
              exact hC.1 sg ss' tid pat h1 h2 h3 h4
            · intro rg tg' rid dat rq h1 h2 h3 h4 h5
              simp only [deliveredDraft, Transfer.receiver_signature,
                Transfer.transporter_signature, Transfer.receiver_id,
                Transfer.delivered_at, Transfer.received_quantity] at h1 h2 h3 h4 h5
              rw [htg] at h2
              obtain rfl := Option.some.inj h1
              obtain rfl := Option.some.inj h2
              obtain rfl := Option.some.inj h3
              obtain rfl := Option.some.inj h4
              obtain rfl := Option.some.inj h5
              rfl
            · intro _
              refine ⟨?_, ?_, ?_⟩
              · show u.sender_signature.isSome = true
                simp [hss]
              · exact (hC.2.2.1 (by simp [htg])).2.1
              · exact (hC.2.2.1 (by simp [htg])).2.2
            · intro _
              simp only [deliveredDraft]
              simp [htg]
          · refine ⟨?_, ?_, ?_, ?_, ?_, ?_⟩
            · simp [FlagsOK, deliveredDraft, hvf]
            · simp [SigShape, deliveredDraft]
            · intro sg ss' tid pat h1 h2 h3 h4
              simp only [deliveredDraft, Transfer.transporter_signature,
                Transfer.pickup_at, Transfer.transporter_id] at h1 h2 h3 h4
              exact hC.1 sg ss' tid pat h1 h2 h3 h4
            · intro rg tg' rid dat rq h1 h2 h3 h4 h5
              simp only [deliveredDraft, Transfer.receiver_signature,
                Transfer.transporter_signature, Transfer.receiver_id,
                Transfer.delivered_at, Transfer.received_quantity] at h1 h2 h3 h4 h5
              rw [htg] at h2
              obtain rfl := Option.some.inj h1
              obtain rfl := Option.some.inj h2
              obtain rfl := Option.some.inj h3
              obtain rfl := Option.some.inj h4
              obtain rfl := Option.some.inj h5
              rfl
            · intro _
              refine ⟨?_, ?_, ?_⟩
              · show u.sender_signature.isSome = true
                simp [hss]
              · exact (hC.2.2.1 (by simp [htg])).2.1
              · exact (hC.2.2.1 (by simp [htg])).2.2
            · intro _
              simp only [deliveredDraft]
              simp [htg]
        · exact absurd hok (by simp)
    · exact absurd hok (by simp)

/-- The scenario-A transfer after delivery is reachable through the lifecycle
operations. -/
theorem demoA2_reachable : Reachable demoCfg demoA2 :=
  Reachable.deliver demoA1 "DEMO-CMO-KOTA" 2000 none 120 demoA2
    (Reachable.pickup demoA0 "DEMO-VEHICLE-001" 110 demoA1
      (Reachable.create "TRF-001" demoReqA 100 demoA0 rfl) rfl) rfl

/-- The scenario-B transfer after its short delivery is reachable through the
lifecycle operations. -/
theorem demoB2_reachable : Reachable demoCfg demoB2 :=
  Reachable.deliver demoB1 "DEMO-CMO-AJMER" 700 (some "100 units missing on arrival") 220 demoB2
    (Reachable.pickup demoB0 "DEMO-VEHICLE-002" 210 demoB1
      (Reachable.create "TRF-002" demoReqB 200 demoB0 rfl) rfl) rfl

/-- C1: for every reachable transfer whose status is terminal (verified or
disputed), exactly one of is_verified and has_discrepancy is true, and in
every reachable state the two flags are never both true. -/
theorem c1_terminal_flags_exclusive (cfg : DelayConfig) (t : Transfer)
    (h : Reachable cfg t) :
    ((t.status = .verified ∨ t.status = .disputed) →
      (t.is_verified = true ∧ t.has_discrepancy = false) ∨
      (t.is_verified = false ∧ t.has_discrepancy = true))
    ∧ ¬(t.is_verified = true ∧ t.has_discrepancy = true) := by
  obtain ⟨hF, -, -⟩ := reachable_inv cfg t h
  constructor
  · rintro (hs | hs)
    · exact Or.inl (hF.2.2.2.1 hs)
    · exact Or.inr (hF.2.2.2.2 hs)
  · rintro ⟨hv, hd⟩
    cases hst : t.status with
    | created => have h1 := (hF.1 hst).1; rw [hv] at h1; simp at h1
    | picked_up => have h1 := (hF.2.1 hst).1; rw [hv] at h1; simp at h1
    | delivered => exact hF.2.2.1 hst
    | verified => have h1 := (hF.2.2.2.1 hst).2; rw [hd] at h1; simp at h1
    | disputed => have h1 := (hF.2.2.2.2 hst).1; rw [hv] at h1; simp at h1

/-- Witness for C1: the verified scenario-A transfer and the disputed
scenario-B transfer never carry both flags. -/
theorem c1_terminal_flags_exclusive_witness :
    ¬(demoA2.is_verified = true ∧ demoA2.has_discrepancy = true) ∧
    ¬(demoB2.is_verified = true ∧ demoB2.has_discrepancy = true) :=
  ⟨(c1_terminal_flags_exclusive demoCfg demoA2 demoA2_reachable).2,
   (c1_terminal_flags_exclusive demoCfg demoB2 demoB2_reachable).2⟩

/-- C5: in every reachable transfer the custody signatures form a strict
chain — the transporter digest is recomputed exactly from the stored sender
signature, transporter identity and pickup timestamp, the receiver digest from
the stored transporter signature, receiver identity, delivery timestamp and
received quantity, and a later signature exists only together with the prior
signature and the inputs it binds. -/
theorem c5_signature_chain (cfg : DelayConfig) (t : Transfer) (h : Reachable cfg t) :
    (∀ sg ss tid pat, t.transporter_signature = some sg → t.sender_signature = some ss →
      t.transporter_id = some tid → t.pickup_at = some pat → sg = sign ss tid pat [])
    ∧ (∀ rg tg rid dat rq, t.receiver_signature = some rg →
      t.transporter_signature = some tg → t.receiver_id = some rid →
      t.delivered_at = some dat → t.received_quantity = some rq →
      rg = sign tg rid dat [rq])
    ∧ (t.transporter_signature.isSome = true →
      t.sender_signature.isSome = true ∧ t.transporter_id.isSome = true
      ∧ t.pickup_at.isSome = true)
    ∧ (t.receiver_signature.isSome = true →
      t.transporter_signature.isSome = true ∧ t.receiver_id.isSome = true
      ∧ t.delivered_at.isSome = true ∧ t.received_quantity.isSome = true) :=
  (reachable_inv cfg t h).2.2

/-- The delay check emits warnings only, so it never contributes a critical
finding. -/
theorem firstCritical_delayCheck (cfg : DelayConfig) (t : Transfer) :
    firstCritical (delayCheck cfg t) = none := by
  unfold delayCheck firstCritical
  split
  · split <;> simp
  · simp

/-- C2: delivering a transfer in status picked_up with an intact signature
chain ends verified with the verification hash over the three signatures when
the received quantity matches the shipped quantity, and ends disputed with
discrepancy_type quantity_mismatch otherwise. -/
theorem c2_delivery_fork (cfg : DelayConfig) (t : Transfer) (receiver : String) (q : Int)
    (notes : Option String) (now : Nat) (t' : Transfer) (ss tg : String)
    (hst : t.status = .picked_up)
    (hss : t.sender_signature = some ss)
    (htg : t.transporter_signature = some tg)
    (hvf : t.is_verified = false)
    (hdf : t.has_discrepancy = false)
    (hok : recordDelivery cfg t receiver q notes now = .ok t') :
    (q = t.quantity →
      t'.status = .verified ∧ t'.is_verified = true ∧ t'.has_discrepancy = false ∧
      t'.verification_hash = some (verificationHash ss tg (sign tg receiver now [q])))
    ∧ (q ≠ t.quantity →
      t'.status = .disputed ∧ t'.has_discrepancy = true ∧ t'.is_verified = false ∧
      t'.discrepancy_type = some "quantity_mismatch") := by
  unfold recordDelivery at hok
  split at hok
  · split at hok
    · exact absurd hok (by simp)
    · split at hok
      · rename_i ss0 tg0 hss0 htg0
        rw [hss] at hss0
        rw [htg] at htg0
        obtain rfl := Option.some.inj hss0
        obtain rfl := Option.some.inj htg0
        injection hok with hok
        subst hok
        have hsc : signatureCheck (deliveredDraft t receiver q tg now) = [] := by
          unfold signatureCheck expectedSignaturesPresent deliveredDraft
          simp [hss, htg]
        have hdl : firstCritical (delayCheck cfg (deliveredDraft t receiver q tg now)) = none :=
          firstCritical_delayCheck cfg _
        constructor
        · intro hqe
          have hqc : quantityCheck (deliveredDraft t receiver q tg now) = [] := by
            unfold quantityCheck deliveredDraft
            simp [hqe]
          have hfc : firstCritical
              (detectAnomalies cfg (deliveredDraft t receiver q tg now)) = none := by
            unfold detectAnomalies
            rw [hqc, hsc]
            simpa using hdl
          unfold finalizeDelivery
          rw [hfc]
          refine ⟨rfl, rfl, ?_, rfl⟩
          show (deliveredDraft t receiver q tg now).has_discrepancy = false
          simpa [deliveredDraft] using hdf
        · intro hne
          have hqc : quantityCheck (deliveredDraft t receiver q tg now) =
              [{ type := "quantity_mismatch"
                 severity := .critical
                 message := "Quantity mismatch: shipped " ++ toString t.quantity
                   ++ ", received " ++ toString q
                 missing_units := some (t.quantity - q) }] := by
            unfold quantityCheck deliveredDraft
            simp [hne]
          have hfc : firstCritical
              (detectAnomalies cfg (deliveredDraft t receiver q tg now)) =
              some { type := "quantity_mismatch"
                     severity := .critical
                     message := "Quantity mismatch: shipped " ++ toString t.quantity
                       ++ ", received " ++ toString q
                     missing_units := some (t.quantity - q) } := by
            unfold detectAnomalies firstCritical
            rw [hqc]
            simp
          unfold finalizeDelivery
          rw [hfc]
          refine ⟨rfl, rfl, ?_, rfl⟩
          show (deliveredDraft t receiver q tg now).is_verified = false
          simpa [deliveredDraft] using hvf
      · exact absurd hok (by simp)
  · rename_i hcatch
    exact absurd hok (by simp)

/-- Witness for C2: scenario A — delivering the full 2000 units ends verified
with a verification hash over the three custody signatures. -/
theorem c2_delivery_fork_witness :
    demoA2.status = .verified ∧ demoA2.is_verified = true ∧
    demoA2.has_discrepancy = false ∧
    demoA2.verification_hash = some (verificationHash demoA_senderSig demoA_transporterSig
      (sign demoA_transporterSig "DEMO-CMO-KOTA" 120 [2000])) :=
  (c2_delivery_fork demoCfg demoA1 "DEMO-CMO-KOTA" 2000 none 120 demoA2
    demoA_senderSig demoA_transporterSig rfl rfl rfl rfl rfl rfl).1 rfl

/-- Witness for C5: recomputing the scenario-A transporter and receiver
digests from their stored inputs reproduces the stored signatures. -/
theorem c5_signature_chain_witness :
    demoA_transporterSig = sign demoA_senderSig "DEMO-VEHICLE-001" 110 [] ∧
    demoA_receiverSig = sign demoA_transporterSig "DEMO-CMO-KOTA" 120 [2000] :=
  ⟨(c5_signature_chain demoCfg demoA2 demoA2_reachable).1 demoA_transporterSig
      demoA_senderSig "DEMO-VEHICLE-001" 110 rfl rfl rfl rfl,
   (c5_signature_chain demoCfg demoA2 demoA2_reachable).2.1 demoA_receiverSig
      demoA_transporterSig "DEMO-CMO-KOTA" 120 2000 rfl rfl rfl rfl rfl⟩

/-- C3: a create request with a non-positive quantity or equal district ids
always fails with a ValidationError and creates no record (the store is
unchanged), and every successfully created transfer has a positive quantity
and distinct district ids. -/
theorem c3_create_validation (s : Store) (id : String) (req : CreateRequest) (now : Nat) :
    ((req.quantity ≤ 0 ∨ req.from_district_id = req.to_district_id) →
      (storeCreate s id req now).1 = s ∧
      isValidationError (storeCreate s id req now).2 = true)
    ∧ (∀ t : Transfer, (storeCreate s id req now).2 = .ok t →
      0 < t.quantity ∧ t.from_district_id ≠ t.to_district_id) := by
  constructor
  · intro hbad
    have hv : ∃ msg, validateCreate req = some msg := by
      unfold validateCreate
      rcases hbad with hq | hd
      · exact ⟨_, if_pos hq⟩
      · by_cases hq : req.quantity ≤ 0
        · exact ⟨_, if_pos hq⟩
        · rw [if_neg hq, if_pos hd]
          exact ⟨_, rfl⟩
    obtain ⟨msg, hv⟩ := hv
    unfold storeCreate createTransfer
    rw [hv]
    exact ⟨rfl, rfl⟩
  · intro t hok
    unfold storeCreate at hok
    split at hok
    · exact absurd hok (by simp)
    · rename_i u hu
      simp only at hok
      injection hok with hok
      subst hok
      unfold createTransfer at hu
      cases hv : validateCreate req with
      | some msg => rw [hv] at hu; exact absurd hu (by simp)
      | none =>
        rw [hv] at hu
        injection hu with hu
        subst hu
        unfold validateCreate at hv
        by_cases hq : req.quantity ≤ 0
        · rw [if_pos hq] at hv; simp at hv
        · rw [if_neg hq] at hv
          by_cases hd : req.from_district_id = req.to_district_id
          · rw [if_pos hd] at hv; simp at hv
          · exact ⟨lt_of_not_le hq, hd⟩

/-- Witness for C3: creating with quantity 0 is rejected with a
ValidationError and leaves the empty store empty; scenario A was created with
a positive quantity and distinct districts. -/
theorem c3_create_validation_witness :
    ((storeCreate [] "TRF-900" { demoReqA with quantity := 0 } 10).1 = [] ∧
      isValidationError (storeCreate [] "TRF-900" { demoReqA with quantity := 0 } 10).2 = true)
    ∧ (0 < demoA0.quantity ∧ demoA0.from_district_id ≠ demoA0.to_district_id) :=
  ⟨(c3_create_validation [] "TRF-900" { demoReqA with quantity := 0 } 10).1
      (Or.inl (by decide)),
   (c3_create_validation [] "TRF-001" demoReqA 100).2 demoA0 rfl⟩

/-- C4: every lifecycle event not permitted by the transition table — deliver
whenever the status is not picked_up, pickup whenever the status is not
created (including a duplicate pickup on a picked_up transfer), and in
particular any event on a terminal transfer — fails with an
InvalidTransitionError carrying the current status and the attempted event,
and leaves the store (hence the stored record) completely unchanged. -/
theorem c4_invalid_transition_unchanged (cfg : DelayConfig) (s : Store) (tid : String)
    (t : Transfer) (receiver transporter : String) (q : Int) (notes : Option String)
    (now : Nat) (hl : lookupT s tid = some t) :
    (t.status ≠ .picked_up →
      storeDeliver cfg s tid receiver q notes now =
        (s, .error (.invalidTransitionError t.status "deliver")))
    ∧ (t.status ≠ .created →
      storePickup s tid transporter now =
        (s, .error (.invalidTransitionError t.status "pickup")))
    ∧ ((t.status = .verified ∨ t.status = .disputed) →
      storePickup s tid transporter now =
        (s, .error (.invalidTransitionError t.status "pickup")) ∧
      storeDeliver cfg s tid receiver q notes now =
        (s, .error (.invalidTransitionError t.status "deliver"))) := by
  have hdel : t.status ≠ .picked_up →
      storeDeliver cfg s tid receiver q notes now =
        (s, .error (.invalidTransitionError t.status "deliver")) := by
    intro hne
    unfold storeDeliver
    rw [hl]
    have hrd : recordDelivery cfg t receiver q notes now =
        .error (.invalidTransitionError t.status "deliver") := by
      unfold recordDelivery
      cases hst : t.status with
      | picked_up => exact absurd hst hne
      | created => rfl
      | delivered => rfl
      | verified => rfl
      | disputed => rfl
    simp [hrd]
  have hpick : t.status ≠ .created →
      storePickup s tid transporter now =
        (s, .error (.invalidTransitionError t.status "pickup")) := by
    intro hne
    unfold storePickup
    rw [hl]
    have hrp : recordPickup t transporter now =
        .error (.invalidTransitionError t.status "pickup") := by
      unfold recordPickup
      cases hst : t.status with
      | created => exact absurd hst hne
      | picked_up => rfl
      | delivered => rfl
      | verified => rfl
      | disputed => rfl
    simp [hrp]
  refine ⟨hdel, hpick, ?_⟩
  rintro (hterm | hterm) <;>
    exact ⟨hpick (by rw [hterm]; intro hc; cases hc),
      hdel (by rw [hterm]; intro hc; cases hc)⟩

/-- Witness for C4: a duplicate pickup report on the picked-up scenario-B
transfer is rejected, and both pickup and deliver on the verified scenario-A
transfer are rejected — each with an InvalidTransitionError and with the
store left unchanged. -/
theorem c4_invalid_transition_unchanged_witness :
    storePickup [("TRF-002", demoB1)] "TRF-002" "DUPLICATE-VEHICLE" 400 =
      ([("TRF-002", demoB1)], .error (.invalidTransitionError demoB1.status "pickup")) ∧
    storePickup demoStore "TRF-001" "LATE-VEHICLE" 500 =
      (demoStore, .error (.invalidTransitionError demoA2.status "pickup")) ∧
    storeDeliver demoCfg demoStore "TRF-001" "LATE-RECEIVER" 5 none 500 =
      (demoStore, .error (.invalidTransitionError demoA2.status "deliver")) :=
  ⟨(c4_invalid_transition_unchanged demoCfg [("TRF-002", demoB1)] "TRF-002" demoB1
      "UNUSED-RECEIVER" "DUPLICATE-VEHICLE" 0 none 400 rfl).2.1 (by decide),
   ((c4_invalid_transition_unchanged demoCfg demoStore "TRF-001" demoA2
      "LATE-RECEIVER" "LATE-VEHICLE" 5 none 500 rfl).2.2 (Or.inl rfl)).1,
   ((c4_invalid_transition_unchanged demoCfg demoStore "TRF-001" demoA2
      "LATE-RECEIVER" "LATE-VEHICLE" 5 none 500 rfl).2.2 (Or.inl rfl)).2⟩

/-- C6: for every transfer delivered short or over — received_quantity set and
different from the shipped quantity — the first Detector finding is the
critical quantity-mismatch anomaly with missing_units equal to
quantity minus received_quantity. -/
theorem c6_quantity_mismatch_anomaly (cfg : DelayConfig) (t : Transfer) (rq : Int)
    (hr : t.received_quantity = some rq) (hne : rq ≠ t.quantity) :
    (detectAnomalies cfg t).head? = some
      { type := "quantity_mismatch"
        severity := .critical
        message := "Quantity mismatch: shipped " ++ toString t.quantity
          ++ ", received " ++ toString rq
        missing_units := some (t.quantity - rq) } := by
  have hqc : quantityCheck t =
      [{ type := "quantity_mismatch"
         severity := .critical
         message := "Quantity mismatch: shipped " ++ toString t.quantity
           ++ ", received " ++ toString rq
         missing_units := some (t.quantity - rq) }] := by
    unfold quantityCheck
    rw [hr]
    simp [hne]
  unfold detectAnomalies
  rw [hqc]
  rfl

/-- Witness for C6: scenario B — delivering 700 of 800 shipped units reports
the critical quantity-mismatch anomaly with missing_units = 100, and the
stored record carries discrepancy_type quantity_mismatch. -/
theorem c6_quantity_mismatch_anomaly_witness :
    (detectAnomalies demoCfg demoB2).head? = some
      { type := "quantity_mismatch"
        severity := .critical
        message := "Quantity mismatch: shipped 800, received 700"
        missing_units := some 100 } ∧
    demoB2.discrepancy_type = some "quantity_mismatch" :=
  ⟨c6_quantity_mismatch_anomaly demoCfg demoB2 700 rfl (by decide), rfl⟩

/-- The Anomaly Detector finds nothing on a freshly created transfer. -/
theorem detect_mkTransfer (cfg : DelayConfig) (id : String) (req : CreateRequest)
    (now : Nat) : detectAnomalies cfg (mkTransfer id req now) = [] := rfl

/-- C7: listPending returns exactly the stored transfers in status created or
picked_up; a freshly created transfer appears in listPending of the updated
store and is absent from listAnomalous, having no discrepancy and no detector
findings.  Both queries are pure reads of the store. -/
theorem c7_pending_query (cfg : DelayConfig) (s : Store) (id : String)
    (req : CreateRequest) (now : Nat) (s' : Store) (t : Transfer)
    (hc : storeCreate s id req now = (s', .ok t)) :
    (∀ (s₀ : Store) (u : Transfer),
      u ∈ listPending s₀ ↔
        u ∈ s₀.map (fun p => p.2) ∧ (u.status = .created ∨ u.status = .picked_up))
    ∧ t ∈ listPending s'
    ∧ (∀ findings : List Anomaly, (t, findings) ∉ listAnomalous cfg s') := by
  have hchar : ∀ (s₀ : Store) (u : Transfer),
      u ∈ listPending s₀ ↔
        u ∈ s₀.map (fun p => p.2) ∧ (u.status = .created ∨ u.status = .picked_up) := by
    intro s₀ u
    unfold listPending
    rw [List.mem_filter]
    simp
  have hmk : s' = (id, t) :: s ∧ t = mkTransfer id req now := by
    unfold storeCreate at hc
    split at hc
    · exact absurd (congrArg Prod.snd hc) (by simp)
    · rename_i u hu
      have h1 := congrArg Prod.fst hc
      have h2 := congrArg Prod.snd hc
      simp only at h1 h2
      injection h2 with h2
      subst h2
      unfold createTransfer at hu
      cases hv : validateCreate req with
      | some msg => rw [hv] at hu; exact absurd hu (by simp)
      | none =>
        rw [hv] at hu
        injection hu with hu
        exact ⟨h1.symm, hu.symm⟩
  obtain ⟨hs', ht⟩ := hmk
  refine ⟨hchar, ?_, ?_⟩
  · rw [(hchar s' t)]
    constructor
    · rw [hs']
      simp
    · left
      rw [ht]
      rfl
  · intro findings hmem
    unfold listAnomalous at hmem
    rw [List.mem_filterMap] at hmem
    obtain ⟨u, -, hu⟩ := hmem
    split at hu
    · rename_i hcond
      injection hu with hu
      have hu1 : u = t := congrArg Prod.fst hu
      rw [hu1, ht] at hcond
      rw [detect_mkTransfer] at hcond
      simp [mkTransfer] at hcond
    · exact absurd hu (by simp)

/-- Witness for C7: the freshly created scenario-C transfer is pending and
not anomalous in the store holding just it. -/
theorem c7_pending_query_witness :
    demoC0 ∈ listPending [("TRF-003", demoC0)] ∧
    (demoC0, ([] : List Anomaly)) ∉ listAnomalous demoCfg [("TRF-003", demoC0)] :=
  ⟨(c7_pending_query demoCfg [] "TRF-003" demoReqC 300 [("TRF-003", demoC0)] demoC0 rfl).2.1,
   (c7_pending_query demoCfg [] "TRF-003" demoReqC 300 [("TRF-003", demoC0)] demoC0 rfl).2.2 []⟩

/-- Looking up the key of the head entry returns its transfer. -/
theorem lookupT_cons_self (key : String) (t' : Transfer) (rest : Store) :
    lookupT ((key, t') :: rest) key = some t' := by
  simp [lookupT]

/-- Looking up a key distinct from the head entry skips it. -/
theorem lookupT_cons_ne (k other : String) (t' : Transfer) (rest : Store)
    (h : other ≠ k) : lookupT ((other, t') :: rest) k = lookupT rest k := by
  simp [lookupT, List.find?_cons_of_neg, h]

/-- Updating a key that is present changes exactly that lookup. -/
theorem lookupT_updateT (s : Store) (tid : String) (t t' : Transfer)
    (h : lookupT s tid = some t) : lookupT (updateT s tid t') tid = some t' := by
  induction s with
  | nil => simp [lookupT] at h
  | cons p rest ih =>
    by_cases hp : p.1 = tid
    · simp [lookupT, updateT, hp]
    · have h' : lookupT rest tid = some t := by
        simpa [lookupT, List.find?_cons_of_neg, hp] using h
      have hrec := ih h'
      simpa [lookupT, updateT, hp, List.find?_cons_of_neg] using hrec

/-- A delivery on a picked-up transfer with an intact chain commits a terminal
record, and a second delivery on the same id is then rejected with an
InvalidTransitionError and leaves the store unchanged. -/
theorem deliver_then_blocked (cfg : DelayConfig) (s : Store) (tid : String) (t : Transfer)
    (ss tg r1 r2 : String) (q1 q2 : Int) (n1 n2 : Option String) (now1 now2 : Nat)
    (hl : lookupT s tid = some t) (hst : t.status = .picked_up)
    (hss : t.sender_signature = some ss) (htg : t.transporter_signature = some tg)
    (hq1 : 0 ≤ q1) :
    isOkTerminal (storeDeliver cfg s tid r1 q1 n1 now1).2 = true
    ∧ isInvalidTransition
        (storeDeliver cfg (storeDeliver cfg s tid r1 q1 n1 now1).1 tid r2 q2 n2 now2).2 = true
    ∧ (storeDeliver cfg (storeDeliver cfg s tid r1 q1 n1 now1).1 tid r2 q2 n2 now2).1
        = (storeDeliver cfg s tid r1 q1 n1 now1).1 := by
  have hrd : recordDelivery cfg t r1 q1 n1 now1 =
      .ok (finalizeDelivery cfg (deliveredDraft t r1 q1 tg now1) ss tg
        (sign tg r1 now1 [q1]) n1) := by
    unfold recordDelivery
    rw [hst]
    simp only [hss, htg]
    rw [if_neg (not_lt.mpr hq1)]
  have hsd : storeDeliver cfg s tid r1 q1 n1 now1 =
      (updateT s tid (finalizeDelivery cfg (deliveredDraft t r1 q1 tg now1) ss tg
        (sign tg r1 now1 [q1]) n1),
       .ok (finalizeDelivery cfg (deliveredDraft t r1 q1 tg now1) ss tg
        (sign tg r1 now1 [q1]) n1)) := by
    unfold storeDeliver
    rw [hl]
    simp only [hrd]
  have hterm : (finalizeDelivery cfg (deliveredDraft t r1 q1 tg now1) ss tg
        (sign tg r1 now1 [q1]) n1).status = .verified ∨
      (finalizeDelivery cfg (deliveredDraft t r1 q1 tg now1) ss tg
        (sign tg r1 now1 [q1]) n1).status = .disputed := by
    unfold finalizeDelivery
    split
    · left; rfl
    · right; rfl
  have hl1 : lookupT (updateT s tid (finalizeDelivery cfg (deliveredDraft t r1 q1 tg now1)
      ss tg (sign tg r1 now1 [q1]) n1)) tid =
      some (finalizeDelivery cfg (deliveredDraft t r1 q1 tg now1) ss tg
        (sign tg r1 now1 [q1]) n1) :=
    lookupT_updateT s tid t _ hl
  have hrd2 : recordDelivery cfg (finalizeDelivery cfg (deliveredDraft t r1 q1 tg now1)
      ss tg (sign tg r1 now1 [q1]) n1) r2 q2 n2 now2 =
      .error (.invalidTransitionError (finalizeDelivery cfg (deliveredDraft t r1 q1 tg now1)
        ss tg (sign tg r1 now1 [q1]) n1).status "deliver") := by
    unfold recordDelivery
    rcases hterm with h | h <;> rw [h]
  refine ⟨?_, ?_, ?_⟩
  · rw [hsd]
    unfold isOkTerminal
    rcases hterm with h | h <;> simp [h]
  · rw [hsd]
    unfold storeDeliver
    rw [hl1]
    simp [hrd2, isInvalidTransition]
  · rw [hsd]
    unfold storeDeliver
    rw [hl1]
    simp [hrd2]

/-- Creating two transfers with distinct ids succeeds in either order and the
two final stores agree on both ids. -/
theorem create_parallel (s : Store) (id1 id2 : String) (req1 req2 : CreateRequest)
    (now1 now2 : Nat) (hne : id1 ≠ id2)
    (hv1 : validateCreate req1 = none) (hv2 : validateCreate req2 = none) :
    isOk (storeCreate s id1 req1 now1).2 = true
    ∧ isOk (storeCreate (storeCreate s id1 req1 now1).1 id2 req2 now2).2 = true
    ∧ isOk (storeCreate s id2 req2 now2).2 = true
    ∧ isOk (storeCreate (storeCreate s id2 req2 now2).1 id1 req1 now1).2 = true
    ∧ lookupT (storeCreate (storeCreate s id1 req1 now1).1 id2 req2 now2).1 id1
      = lookupT (storeCreate (storeCreate s id2 req2 now2).1 id1 req1 now1).1 id1
    ∧ lookupT (storeCreate (storeCreate s id1 req1 now1).1 id2 req2 now2).1 id2
      = lookupT (storeCreate (storeCreate s id2 req2 now2).1 id1 req1 now1).1 id2 := by
  have hc1 : ∀ (s0 : Store), storeCreate s0 id1 req1 now1 =
      ((id1, mkTransfer id1 req1 now1) :: s0, .ok (mkTransfer id1 req1 now1)) := by
    intro s0
    unfold storeCreate createTransfer
    rw [hv1]
  have hc2 : ∀ (s0 : Store), storeCreate s0 id2 req2 now2 =
      ((id2, mkTransfer id2 req2 now2) :: s0, .ok (mkTransfer id2 req2 now2)) := by
    intro s0
    unfold storeCreate createTransfer
    rw [hv2]
  rw [hc1, hc2, hc2, hc1]
  simp only [isOk]
  refine ⟨trivial, trivial, trivial, trivial, ?_, ?_⟩
  · rw [lookupT_cons_ne id1 id2 (mkTransfer id2 req2 now2) _ (Ne.symm hne),
      lookupT_cons_self, lookupT_cons_self]
  · rw [lookupT_cons_self,
      lookupT_cons_ne id2 id1 (mkTransfer id1 req1 now1) _ hne,
      lookupT_cons_self]

/-- C8: two delivery reports on the same picked_up transfer, executed in
either serialization order, let exactly the first one succeed (committing a
terminal record once) while the second receives an InvalidTransitionError and
leaves the store unchanged; creation of transfers with distinct ids succeeds
in either order with the same resulting records. -/
theorem c8_serialized_delivery (cfg : DelayConfig) (s : Store) (tid : String) (t : Transfer)
    (ss tg r1 r2 : String) (q1 q2 : Int) (n1 n2 : Option String) (now1 now2 : Nat)
    (hl : lookupT s tid = some t) (hst : t.status = .picked_up)
    (hss : t.sender_signature = some ss) (htg : t.transporter_signature = some tg)
    (hq1 : 0 ≤ q1) (hq2 : 0 ≤ q2) :
    (isOkTerminal (storeDeliver cfg s tid r1 q1 n1 now1).2 = true
     ∧ isInvalidTransition
        (storeDeliver cfg (storeDeliver cfg s tid r1 q1 n1 now1).1 tid r2 q2 n2 now2).2 = true
     ∧ (storeDeliver cfg (storeDeliver cfg s tid r1 q1 n1 now1).1 tid r2 q2 n2 now2).1
        = (storeDeliver cfg s tid r1 q1 n1 now1).1)
    ∧ (isOkTerminal (storeDeliver cfg s tid r2 q2 n2 now2).2 = true
     ∧ isInvalidTransition
        (storeDeliver cfg (storeDeliver cfg s tid r2 q2 n2 now2).1 tid r1 q1 n1 now1).2 = true
     ∧ (storeDeliver cfg (storeDeliver cfg s tid r2 q2 n2 now2).1 tid r1 q1 n1 now1).1
        = (storeDeliver cfg s tid r2 q2 n2 now2).1)
    ∧ (∀ (s0 : Store) (id1 id2 : String) (req1 req2 : CreateRequest) (nowc1 nowc2 : Nat),
        id1 ≠ id2 → validateCreate req1 = none → validateCreate req2 = none →
        isOk (storeCreate s0 id1 req1 nowc1).2 = true
        ∧ isOk (storeCreate (storeCreate s0 id1 req1 nowc1).1 id2 req2 nowc2).2 = true
        ∧ isOk (storeCreate s0 id2 req2 nowc2).2 = true
        ∧ isOk (storeCreate (storeCreate s0 id2 req2 nowc2).1 id1 req1 nowc1).2 = true
        ∧ lookupT (storeCreate (storeCreate s0 id1 req1 nowc1).1 id2 req2 nowc2).1 id1
          = lookupT (storeCreate (storeCreate s0 id2 req2 nowc2).1 id1 req1 nowc1).1 id1
        ∧ lookupT (storeCreate (storeCreate s0 id1 req1 nowc1).1 id2 req2 nowc2).1 id2
          = lookupT (storeCreate (storeCreate s0 id2 req2 nowc2).1 id1 req1 nowc1).1 id2) :=
  ⟨deliver_then_blocked cfg s tid t ss tg r1 r2 q1 q2 n1 n2 now1 now2 hl hst hss htg hq1,
   deliver_then_blocked cfg s tid t ss tg r2 r1 q2 q1 n2 n1 now2 now1 hl hst hss htg hq2,
   fun s0 id1 id2 req1 req2 nowc1 nowc2 hne hv1 hv2 =>
     create_parallel s0 id1 id2 req1 req2 nowc1 nowc2 hne hv1 hv2⟩

/-- Witness for C8: of two delivery reports for the picked-up scenario-B
transfer, the first commits a terminal record and the second is rejected with
an InvalidTransitionError. -/
theorem c8_serialized_delivery_witness :
    isOkTerminal (storeDeliver demoCfg [("TRF-002", demoB1)] "TRF-002"
      "DEMO-CMO-AJMER" 700 none 220).2 = true
    ∧ isInvalidTransition
        (storeDeliver demoCfg (storeDeliver demoCfg [("TRF-002", demoB1)] "TRF-002"
          "DEMO-CMO-AJMER" 700 none 220).1 "TRF-002" "SECOND-REPORT" 800 none 230).2 = true :=
  ⟨(c8_serialized_delivery demoCfg [("TRF-002", demoB1)] "TRF-002" demoB1
      demoB_senderSig demoB_transporterSig "DEMO-CMO-AJMER" "SECOND-REPORT" 700 800 none none
      220 230 rfl rfl rfl rfl (by decide) (by decide)).1.1,
   (c8_serialized_delivery demoCfg [("TRF-002", demoB1)] "TRF-002" demoB1
      demoB_senderSig demoB_transporterSig "DEMO-CMO-AJMER" "SECOND-REPORT" 700 800 none none
      220 230 rfl rfl rfl rfl (by decide) (by decide)).1.2.1⟩

end Protocol


namespace Client

/-- C9: when the form's two district ids are equal, `handleSubmit` returns
before calling `createTransfer` — no request is issued and the success
callback does not run, only the guard alert fires — and whenever
`createTransfer` is called from this form, the district ids differ. -/
theorem c9_form_guard (fd : TransferFormData) (createResolves : Bool) :
    (fd.from_district_id = fd.to_district_id →
      (handleSubmit fd createResolves).createCalled = none
      ∧ (handleSubmit fd createResolves).onSuccessCalled = false
      ∧ (handleSubmit fd createResolves).alertMessage =
          some "Source and destination must be different!")
    ∧ (∀ fd' : TransferFormData,
      (handleSubmit fd createResolves).createCalled = some fd' →
      fd'.from_district_id ≠ fd'.to_district_id) := by
  unfold handleSubmit
  by_cases h : fd.from_district_id = fd.to_district_id
  · rw [if_pos h]
    exact ⟨fun _ => ⟨rfl, rfl, rfl⟩, fun fd' hc => absurd hc (by simp)⟩
  · rw [if_neg h]
    refine ⟨fun hc => absurd hc h, fun fd' hc => ?_⟩
    have hfd : fd' = fd := by
      cases createResolves <;> simp at hc <;> exact hc.symm
    rw [hfd]
    exact h

/-- Witness for C9: submitting the form with Jaipur as both origin and
destination issues no create request, runs no success callback, and shows the
guard alert. -/
theorem c9_form_guard_witness :
    (handleSubmit demoFormSame true).createCalled = none
    ∧ (handleSubmit demoFormSame true).onSuccessCalled = false
    ∧ (handleSubmit demoFormSame true).alertMessage =
        some "Source and destination must be different!" :=
  (c9_form_guard demoFormSame true).1 rfl

/-- C10: every transfer API wrapper returns the parsed JSON body without
inspecting the HTTP status — whatever the status (including 400, 404, 409),
the promise resolves with the parsed body when parsing succeeds, and it
rejects exactly when the fetch itself fails or the body does not parse. -/
theorem c10_wrappers_ignore_status {α : Type} (parse : String → Option α)
    (r : HttpResponse) (v : α) :
    (parse r.body = some v →
      getTransfers parse (.response r) = .resolved v
      ∧ getTransfer parse (.response r) = .resolved v
      ∧ getPendingTransfers parse (.response r) = .resolved v
      ∧ getAnomalousTransfers parse (.response r) = .resolved v
      ∧ createTransfer parse (.response r) = .resolved v
      ∧ recordPickup parse (.response r) = .resolved v
      ∧ recordDelivery parse (.response r) = .resolved v)
    ∧ (parse r.body = none →
      getTransfers parse (.response r) = .rejected
      ∧ getTransfer parse (.response r) = .rejected
      ∧ getPendingTransfers parse (.response r) = .rejected
      ∧ getAnomalousTransfers parse (.response r) = .rejected
      ∧ createTransfer parse (.response r) = .rejected
      ∧ recordPickup parse (.response r) = .rejected
      ∧ recordDelivery parse (.response r) = .rejected)
    ∧ (getTransfers parse .networkError = (.rejected : ApiResult α)
      ∧ getTransfer parse .networkError = (.rejected : ApiResult α)
      ∧ getPendingTransfers parse .networkError = (.rejected : ApiResult α)
      ∧ getAnomalousTransfers parse .networkError = (.rejected : ApiResult α)
      ∧ createTransfer parse .networkError = (.rejected : ApiResult α)
      ∧ recordPickup parse .networkError = (.rejected : ApiResult α)
      ∧ recordDelivery parse .networkError = (.rejected : ApiResult α)) := by
  refine ⟨?_, ?_, ?_⟩
  · intro h
    refine ⟨?_, ?_, ?_, ?_, ?_, ?_, ?_⟩ <;>
      simp [getTransfers, getTransfer, getPendingTransfers, getAnomalousTransfers,
        createTransfer, recordPickup, recordDelivery, h]
  · intro h
    refine ⟨?_, ?_, ?_, ?_, ?_, ?_, ?_⟩ <;>
      simp [getTransfers, getTransfer, getPendingTransfers, getAnomalousTransfers,
        createTransfer, recordPickup, recordDelivery, h]
  · refine ⟨?_, ?_, ?_, ?_, ?_, ?_, ?_⟩ <;> rfl

/-- Witness for C10: a 404 response with a parseable error body resolves —
it is not rejected — for both a query wrapper and a mutation wrapper. -/
theorem c10_wrappers_ignore_status_witness :
    getTransfers demoParse (.response demo404) = .resolved "transfer not found"
    ∧ recordDelivery demoParse (.response demo404) = .resolved "transfer not found" :=
  ⟨((c10_wrappers_ignore_status demoParse demo404 "transfer not found").1 (by decide)).1,
   ((c10_wrappers_ignore_status demoParse demo404 "transfer not found").1
      (by decide)).2.2.2.2.2.2⟩

end Client
